import Mathlib

/-!
Verification of the `scopeshare` crate: two access-control wrappers,
`ScopeShare<T>` (single-threaded, backed by `RefCell<T>`) and
`SyncShare<T>` (multi-threaded, backed by `RwLock<T>`).

The embedding is a shallow one.  A cell is a record holding the wrapped
value together with the state of the underlying primitive (the borrow
flag of the `RefCell`, or the lock state and poison flag of the
`RwLock`).  An operation that panics in Rust returns `none`; an
operation that returns normally returns `some` of its result, paired
with the updated cell where the stored value can change.  A Rust
closure `FnOnce(&T) -> R` is modelled as `f : T → R`; a closure
`FnOnce(&mut T) -> R`, which both mutates the value and produces a
result, is modelled as `g : T → T × R` (new value, result).

Blocking acquisition on the `RwLock` (`read()` / `write()`) is
modelled as success on the cell state at acquisition time: in a
sequential execution the lock is available, and across threads the
call simply waits; `unwrap()` then panics exactly when the lock is
poisoned.  The non-blocking `try_read()` / `try_write()` are modelled
on the visible lock state, returning `none` when the lock is held
incompatibly or poisoned (`.ok()` folds `TryLockError::Poisoned` into
`None`).
-/

/-- The borrow flag of a `RefCell`: free, `n` outstanding shared
borrows, or one outstanding mutable borrow. -/
inductive BorrowFlag where
  | free
  | reading (n : Nat)
  | writing
  deriving DecidableEq, Repr

/-- `ScopeShare<T>` from src/scopeshare.rs: a value behind a
`RefCell`, together with the cell's current borrow flag. -/
structure ScopeShare (T : Type) where
  value : T
  flag : BorrowFlag
  deriving DecidableEq, Repr

namespace ScopeShare

/-- `ScopeShare::new(value)`: wraps the value; the fresh `RefCell` has
no outstanding borrows. -/
def new (value : T) : ScopeShare T :=
  ⟨value, BorrowFlag.free⟩

/-- `RefCell::borrow` as used by `ScopeShare`: succeeds (adding one
shared borrow) unless a mutable borrow is active, in which case it
panics (`none`). -/
def borrow (c : ScopeShare T) : Option (ScopeShare T) :=
  match c.flag with
  | BorrowFlag.free => some { c with flag := BorrowFlag.reading 1 }
  | BorrowFlag.reading n => some { c with flag := BorrowFlag.reading (n + 1) }
  | BorrowFlag.writing => none

/-- `RefCell::borrow_mut` as used by `ScopeShare`: succeeds only when
no borrow at all is outstanding; panics (`none`) otherwise. -/
def borrowMut (c : ScopeShare T) : Option (ScopeShare T) :=
  match c.flag with
  | BorrowFlag.free => some { c with flag := BorrowFlag.writing }
  | _ => none

/-- `ScopeShare::with(f)`: `self.inner.borrow()` then `f(&borrow)`.
The shared borrow is transient, so the cell is unchanged afterwards;
only `f`'s result is returned.  Panics iff the borrow does. -/
def with' (c : ScopeShare T) (f : T → R) : Option R :=
  match c.borrow with
  | some c' => some (f c'.value)
  | none => none

/-- `ScopeShare::with_mut(f)`: `self.inner.borrow_mut()` then
`f(&mut borrow)`.  The closure `g` rewrites the value and produces a
result; the exclusive borrow is released on return.  Panics iff the
borrow does. -/
def withMut (c : ScopeShare T) (g : T → T × R) : Option (ScopeShare T × R) :=
  match c.borrowMut with
  | some c' => some ({ value := (g c'.value).1, flag := BorrowFlag.free },
      (g c'.value).2)
  | none => none

/-- `Clone for ScopeShare<T>`: `ScopeShare::new(self.inner.borrow().clone())`
— a transient shared borrow of the original, and a brand-new cell
around the cloned value. -/
def clone (c : ScopeShare T) : Option (ScopeShare T) :=
  match c.borrow with
  | some c' => some (ScopeShare.new c'.value)
  | none => none

/-- `Serialize for ScopeShare<T>`: `self.inner.borrow().serialize(serializer)`.
The serializer is abstracted as `enc : T → F`. -/
def serialize (c : ScopeShare T) (enc : T → F) : Option F :=
  match c.borrow with
  | some c' => some (enc c'.value)
  | none => none

/-- `Deserialize for ScopeShare<T>`:
`T::deserialize(deserializer).map(ScopeShare::new)`.  The
deserializer is abstracted as `dec : F → Option T`. -/
def deserialize (dec : F → Option T) (s : F) : Option (ScopeShare T) :=
  (dec s).map ScopeShare.new

end ScopeShare

/-- The state of an `RwLock`: unlocked, held by `n` readers, or held
by one writer. -/
inductive LockState where
  | unlocked
  | readLocked (n : Nat)
  | writeLocked
  deriving DecidableEq, Repr

/-- `SyncShare<T>` from src/syncshare.rs: a value behind an `RwLock`,
together with the lock's current state and poison flag. -/
structure SyncShare (T : Type) where
  value : T
  lock : LockState
  poisoned : Bool
  deriving DecidableEq, Repr

namespace SyncShare

/-- `SyncShare::new(value)`: wraps the value; the fresh `RwLock` is
unlocked and not poisoned. -/
def new (value : T) : SyncShare T :=
  ⟨value, LockState.unlocked, false⟩

/-- `SyncShare::with(f)`: `self.inner.read().unwrap()` then
`f(&*guard)`.  The blocking `read()` waits for the lock, so it does
not fail on contention; `unwrap()` panics exactly when the lock is
poisoned. -/
def with' (c : SyncShare T) (f : T → R) : Option R :=
  if c.poisoned then none else some (f c.value)

/-- `SyncShare::with_mut(f)`: `self.inner.write().unwrap()` then
`f(&mut *guard)`.  Blocking write acquisition; panics exactly when
the lock is poisoned. -/
def withMut (c : SyncShare T) (g : T → T × R) : Option (SyncShare T × R) :=
  if c.poisoned then none
  else some ({ c with value := (g c.value).1 }, (g c.value).2)

/-- `SyncShare::try_with(f)`: `self.inner.try_read().ok().map(|guard| f(&*guard))`.
`try_read` fails with `WouldBlock` when a writer holds the lock and
with `Poisoned` when the lock is poisoned; `.ok()` turns both into
`None`. -/
def tryWith (c : SyncShare T) (f : T → R) : Option R :=
  if c.poisoned then none
  else
    match c.lock with
    | LockState.writeLocked => none
    | _ => some (f c.value)

/-- `SyncShare::try_with_mut(f)`:
`self.inner.try_write().ok().map(|mut guard| f(&mut *guard))`.
`try_write` fails with `WouldBlock` whenever the lock is held at all
(by readers or a writer) and with `Poisoned` when poisoned; `.ok()`
turns both into `None`. -/
def tryWithMut (c : SyncShare T) (g : T → T × R) : Option (SyncShare T × R) :=
  if c.poisoned then none
  else
    match c.lock with
    | LockState.unlocked => some ({ c with value := (g c.value).1 }, (g c.value).2)
    | _ => none

/-- `SyncShare::snapshot()`: `self.with(|val| val.clone())`. -/
def snapshot (c : SyncShare T) : Option T :=
  c.with' (fun v => v)

/-- `SyncShare::replace(new)`: `self.with_mut(|val| *val = new)`;
returns the updated cell (`()` result discarded). -/
def replace (c : SyncShare T) (n : T) : Option (SyncShare T) :=
  (c.withMut (fun _ => (n, ()))).map Prod.fst

/-- `Serialize for SyncShare<T>`: `self.with(|val| val.serialize(serializer))`. -/
def serialize (c : SyncShare T) (enc : T → F) : Option F :=
  c.with' (fun v => enc v)

/-- `Deserialize for SyncShare<T>`:
`T::deserialize(deserializer).map(SyncShare::new)`. -/
def deserialize (dec : F → Option T) (s : F) : Option (SyncShare T) :=
  (dec s).map SyncShare.new

end SyncShare

/-- The operations an access cell can expose, covering everything
either wrapper implements. -/
inductive ApiOp where
  | newOp | withOp | withMutOp | borrowOp | borrowMutOp
  | cloneOp | debugOp | serializeOp | deserializeOp
  | tryWithOp | tryWithMutOp | snapshotOp | replaceOp
  deriving DecidableEq, Repr

/-- Which operations `ScopeShare` implements, read off
src/scopeshare.rs: the inherent methods `new`, `with`, `with_mut`,
`borrow_mut`, `borrow`, and the `Clone`, `Debug`, `Serialize`,
`Deserialize` impls. -/
def scopeShareAPI : ApiOp → Bool
  | ApiOp.newOp => true
  | ApiOp.withOp => true
  | ApiOp.withMutOp => true
  | ApiOp.borrowOp => true
  | ApiOp.borrowMutOp => true
  | ApiOp.cloneOp => true
  | ApiOp.debugOp => true
  | ApiOp.serializeOp => true
  | ApiOp.deserializeOp => true
  | _ => false

/-- Which operations `SyncShare` implements, read off
src/syncshare.rs: the inherent methods `new`, `with`, `with_mut`,
`try_with`, `try_with_mut`, `snapshot`, `replace`, `borrow`,
`borrow_mut`, and the `Serialize`, `Deserialize` impls.  There is no
`Clone` impl and no `Debug` impl for `SyncShare`. -/
def syncShareAPI : ApiOp → Bool
  | ApiOp.newOp => true
  | ApiOp.withOp => true
  | ApiOp.withMutOp => true
  | ApiOp.borrowOp => true
  | ApiOp.borrowMutOp => true
  | ApiOp.tryWithOp => true
  | ApiOp.tryWithMutOp => true
  | ApiOp.snapshotOp => true
  | ApiOp.replaceOp => true
  | ApiOp.serializeOp => true
  | ApiOp.deserializeOp => true
  | _ => false

/-- C1: for every value `v`, constructing a cell with `new(v)` and
reading it back with `with(|x| x.clone())` returns `v`, for the
single-owner cell and for the shared cell. -/
theorem c1_read_back_identity {T : Type} (v : T) :
    (ScopeShare.new v).with' (fun x => x) = some v ∧
    (SyncShare.new v).with' (fun x => x) = some v := by
  exact ⟨rfl, rfl⟩

/-- C2: on the single-owner cell, `with_mut` panics (`none`) whenever
any access is outstanding (the borrow flag is not free); in
particular a cell on which a `borrow` guard is alive — the same flag
state that holds while a `with` closure runs — has a non-free flag,
so `with_mut` on it panics. -/
theorem c2_with_mut_fails_while_borrowed {T R : Type} (c : ScopeShare T)
    (g : T → T × R) :
    (c.flag ≠ BorrowFlag.free → c.withMut g = none) ∧
    (∀ c', c.borrow = some c' →
      c'.flag ≠ BorrowFlag.free ∧ c'.withMut g = none) := by
  constructor
  · intro h
    unfold ScopeShare.withMut ScopeShare.borrowMut
    match hf : c.flag with
    | BorrowFlag.free => exact absurd hf h
    | BorrowFlag.reading n => simp [hf]
    | BorrowFlag.writing => simp [hf]
  · intro c' h
    unfold ScopeShare.borrow at h
    match hf : c.flag with
    | BorrowFlag.free =>
        rw [hf] at h
        cases h
        exact ⟨by simp, by simp [ScopeShare.withMut, ScopeShare.borrowMut]⟩
    | BorrowFlag.reading n =>
        rw [hf] at h
        cases h
        exact ⟨by simp, by simp [ScopeShare.withMut, ScopeShare.borrowMut]⟩
    | BorrowFlag.writing =>
        rw [hf] at h
        cases h

/-- C2 witness: a concrete cell with one outstanding shared borrow,
on which `with_mut` panics. -/
theorem c2_with_mut_fails_while_borrowed_witness :
    (({ value := 0, flag := BorrowFlag.reading 1 } : ScopeShare Nat).withMut
      (fun x => (x + 1, x)) = none) ∧
    ((ScopeShare.new 0).borrow = some ({ value := 0, flag := BorrowFlag.reading 1 } : ScopeShare Nat)) ∧
    (({ value := 0, flag := BorrowFlag.reading 1 } : ScopeShare Nat).flag ≠ BorrowFlag.free) :=
  ⟨(c2_with_mut_fails_while_borrowed
      ({ value := 0, flag := BorrowFlag.reading 1 } : ScopeShare Nat)
      (fun x => (x + 1, x))).1 (by decide),
   rfl,
   ((c2_with_mut_fails_while_borrowed (ScopeShare.new 0)
      (fun x => (x + 1, x))).2
      ({ value := 0, flag := BorrowFlag.reading 1 } : ScopeShare Nat) rfl).1⟩

/-- C3: on a quiescent cell, `with_mut(g)` followed by
`with(|x| x.clone())` reads back exactly `g` applied once to the
previously stored value, for the single-owner cell and for the shared
cell. -/
theorem c3_mutation_applied_exactly_once {T R : Type} (c : ScopeShare T)
    (d : SyncShare T) (g : T → T × R)
    (hc : c.flag = BorrowFlag.free) (hd : d.poisoned = false) :
    ((c.withMut g).bind (fun p => p.1.with' (fun x => x))
        = some ((g c.value).1)) ∧
    ((d.withMut g).bind (fun p => p.1.with' (fun x => x))
        = some ((g d.value).1)) := by
  constructor
  · simp [ScopeShare.withMut, ScopeShare.borrowMut, hc, ScopeShare.with',
      ScopeShare.borrow]
  · simp [SyncShare.withMut, hd, SyncShare.with']

/-- C3 witness: storing 5 and incrementing via `with_mut` reads back
6 on both cells. -/
theorem c3_mutation_applied_exactly_once_witness :
    (((ScopeShare.new 5).withMut (fun x => (x + 1, x))).bind
        (fun p => p.1.with' (fun x => x)) = some 6) ∧
    (((SyncShare.new 5).withMut (fun x => (x + 1, x))).bind
        (fun p => p.1.with' (fun x => x)) = some 6) :=
  c3_mutation_applied_exactly_once (ScopeShare.new 5) (SyncShare.new 5)
    (fun x => (x + 1, x)) rfl rfl

/-- C4: on the shared cell, `try_with` returns `none` immediately
when a writer holds the lock and `some (f value)` otherwise (when not
poisoned); `try_with_mut` returns `none` immediately whenever the
lock is held at all and runs `g` only on an unlocked, unpoisoned
cell. -/
theorem c4_try_never_blocks {T R : Type} (c : SyncShare T) (f : T → R)
    (g : T → T × R) :
    (c.lock = LockState.writeLocked → c.tryWith f = none) ∧
    (c.poisoned = false → c.lock ≠ LockState.writeLocked →
      c.tryWith f = some (f c.value)) ∧
    (c.lock ≠ LockState.unlocked → c.tryWithMut g = none) ∧
    (c.poisoned = false → c.lock = LockState.unlocked →
      c.tryWithMut g = some ({ c with value := (g c.value).1 }, (g c.value).2)) := by
  refine ⟨?_, ?_, ?_, ?_⟩
  · intro h
    cases hp : c.poisoned <;> simp [SyncShare.tryWith, hp, h]
  · intro hp h
    unfold SyncShare.tryWith
    rw [hp]
    match hl : c.lock with
    | LockState.unlocked => simp
    | LockState.readLocked n => simp
    | LockState.writeLocked => exact absurd hl h
  · intro h
    unfold SyncShare.tryWithMut
    cases hp : c.poisoned
    · match hl : c.lock with
      | LockState.unlocked => exact absurd hl h
      | LockState.readLocked n => simp
      | LockState.writeLocked => simp
    · simp
  · intro hp h
    unfold SyncShare.tryWithMut
    rw [hp, h]
    simp

/-- C4 witness: `try_with` on a write-locked cell and `try_with_mut`
on a read-locked cell return `none`; both succeed on a fresh cell. -/
theorem c4_try_never_blocks_witness :
    (({ value := 0, lock := LockState.writeLocked, poisoned := false } : SyncShare Nat).tryWith
      (fun x => x) = none) ∧
    ((SyncShare.new 0).tryWith (fun x => x) = some 0) ∧
    (({ value := 0, lock := LockState.readLocked 1, poisoned := false } : SyncShare Nat).tryWithMut
      (fun x => (x + 1, x)) = none) ∧
    ((SyncShare.new 0).tryWithMut (fun x => (x + 1, x)) =
      some ({ value := 1, lock := LockState.unlocked, poisoned := false }, 0)) :=
  ⟨(c4_try_never_blocks
      ({ value := 0, lock := LockState.writeLocked, poisoned := false } : SyncShare Nat)
      (fun x => x) (fun x => (x + 1, x))).1 rfl,
   (c4_try_never_blocks (SyncShare.new 0) (fun x => x)
      (fun x => (x + 1, x))).2.1 rfl (by decide),
   (c4_try_never_blocks
      ({ value := 0, lock := LockState.readLocked 1, poisoned := false } : SyncShare Nat)
      (fun x => x) (fun x => (x + 1, x))).2.2.1 (by decide),
   (c4_try_never_blocks (SyncShare.new 0) (fun x => x)
      (fun x => (x + 1, x))).2.2.2 rfl rfl⟩

/-- C5: on an unpoisoned shared cell, `snapshot()` returns the stored
value, and `replace(n)` followed by `snapshot()` returns `n`; the
first snapshot's result is the value itself — an independent copy
that the later `replace` cannot touch. -/
theorem c5_snapshot_replace_snapshot {T : Type} (c : SyncShare T) (n : T)
    (h : c.poisoned = false) :
    c.snapshot = some c.value ∧
    (c.replace n).bind SyncShare.snapshot = some n := by
  constructor
  · simp [SyncShare.snapshot, SyncShare.with', h]
  · simp [SyncShare.replace, SyncShare.withMut, h, SyncShare.snapshot,
      SyncShare.with']

/-- C5 witness: snapshot of a fresh cell holding 1 is 1; after
`replace 2` the snapshot is 2. -/
theorem c5_snapshot_replace_snapshot_witness :
    ((SyncShare.new 1).snapshot = some 1) ∧
    (((SyncShare.new 1).replace 2).bind SyncShare.snapshot = some 2) :=
  c5_snapshot_replace_snapshot (SyncShare.new 1) 2 rfl

/-- C6: for any encoder/decoder pair that round-trips on `T`,
serializing a cell and deserializing the result yields a fresh cell
holding the original value, whose read-back equals the original
cell's value — for the single-owner cell (when not mutably borrowed)
and for the shared cell (when not poisoned). -/
theorem c6_serde_round_trip {T F : Type} (enc : T → F) (dec : F → Option T)
    (hrt : ∀ t, dec (enc t) = some t) (c : ScopeShare T) (d : SyncShare T)
    (hc : c.flag ≠ BorrowFlag.writing) (hd : d.poisoned = false) :
    ((c.serialize enc).bind (ScopeShare.deserialize dec)
        = some (ScopeShare.new c.value)) ∧
    ((ScopeShare.new c.value).with' (fun x => x) = some c.value) ∧
    ((d.serialize enc).bind (SyncShare.deserialize dec)
        = some (SyncShare.new d.value)) ∧
    ((SyncShare.new d.value).with' (fun x => x) = some d.value) := by
  refine ⟨?_, rfl, ?_, rfl⟩
  · unfold ScopeShare.serialize ScopeShare.borrow
    match hf : c.flag with
    | BorrowFlag.free => simp [ScopeShare.deserialize, hrt]
    | BorrowFlag.reading m => simp [ScopeShare.deserialize, hrt]
    | BorrowFlag.writing => exact absurd hf hc
  · simp [SyncShare.serialize, SyncShare.with', hd, SyncShare.deserialize, hrt]

/-- C6 witness: with the identity encoder and `some` as decoder, the
round trip on cells holding 7 and 8 reproduces those values. -/
theorem c6_serde_round_trip_witness :
    (((ScopeShare.new 7).serialize (fun t => t)).bind (ScopeShare.deserialize some)
        = some (ScopeShare.new 7)) ∧
    ((ScopeShare.new 7).with' (fun x => x) = some 7) ∧
    (((SyncShare.new 8).serialize (fun t => t)).bind (SyncShare.deserialize some)
        = some (SyncShare.new 8)) ∧
    ((SyncShare.new 8).with' (fun x => x) = some 8) :=
  c6_serde_round_trip (fun t => t) some (fun _ => rfl)
    (ScopeShare.new 7) (SyncShare.new 8) (by decide) rfl

/-- C7: cloning a quiescent single-owner cell succeeds and yields a
fresh cell holding the same value; mutating the original afterwards
leaves the clone's read-back at the old value, and mutating the clone
leaves the original's read-back at the old value. -/
theorem c7_clone_independent {T R : Type} (c : ScopeShare T) (g : T → T × R)
    (h : c.flag = BorrowFlag.free) :
    (c.clone = some (ScopeShare.new c.value)) ∧
    ((c.withMut g).bind (fun _ => (ScopeShare.new c.value).with' (fun x => x))
        = some c.value) ∧
    (((ScopeShare.new c.value).withMut g).bind (fun _ => c.with' (fun x => x))
        = some c.value) := by
  refine ⟨?_, ?_, ?_⟩
  · simp [ScopeShare.clone, ScopeShare.borrow, h]
  · simp [ScopeShare.withMut, ScopeShare.borrowMut, h, ScopeShare.with',
      ScopeShare.borrow, ScopeShare.new]
  · simp [ScopeShare.withMut, ScopeShare.borrowMut, ScopeShare.new,
      ScopeShare.with', ScopeShare.borrow, h]

/-- C7 witness: cloning a fresh cell holding 3, then doubling either
copy, leaves the other copy reading back 3. -/
theorem c7_clone_independent_witness :
    ((ScopeShare.new 3).clone = some (ScopeShare.new 3)) ∧
    (((ScopeShare.new 3).withMut (fun x => (x * 2, ()))).bind
        (fun _ => (ScopeShare.new 3).with' (fun x => x)) = some 3) ∧
    (((ScopeShare.new 3).withMut (fun x => (x * 2, ()))).bind
        (fun _ => (ScopeShare.new 3).with' (fun x => x)) = some 3) :=
  c7_clone_independent (ScopeShare.new 3) (fun x => (x * 2, ())) rfl

/-- C8: on the shared cell, `with` and `with_mut` never fail because
of lock contention — the blocking acquisition is modelled as success
on whatever lock state the cell is in — and they panic exactly when
the lock is poisoned: over every lock state, the outcome is `none`
iff the poison flag is set. -/
theorem c8_blocking_fail_only_on_poison {T R : Type} (c : SyncShare T)
    (f : T → R) (g : T → T × R) :
    ((c.with' f).isNone = c.poisoned) ∧
    ((c.withMut g).isNone = c.poisoned) := by
  cases hp : c.poisoned <;>
    simp [SyncShare.with', SyncShare.withMut, hp]

/-- C9 counterexample: the single-owner cell implements `Clone` (and
`Debug`), but the shared cell implements neither, so the API surfaces
are not identical as the claim states. -/
theorem c9_api_surface_counterexample :
    scopeShareAPI ApiOp.cloneOp = true ∧ syncShareAPI ApiOp.cloneOp = false ∧
    scopeShareAPI ApiOp.debugOp = true ∧ syncShareAPI ApiOp.debugOp = false := by
  decide

/-- C9 (amended): every operation the single-owner cell implements,
other than `clone` and the debug representation, is also implemented
by the shared cell. -/
theorem c9_api_surface_amended (op : ApiOp) (h1 : op ≠ ApiOp.cloneOp)
    (h2 : op ≠ ApiOp.debugOp) (h3 : scopeShareAPI op = true) :
    syncShareAPI op = true := by
  cases op <;> first
    | rfl
    | exact absurd rfl h1
    | exact absurd rfl h2

/-- C9 witness: the serialization pass-through is on both surfaces. -/
theorem c9_api_surface_amended_witness :
    syncShareAPI ApiOp.serializeOp = true :=
  c9_api_surface_amended ApiOp.serializeOp (by decide) (by decide) rfl

/-- C10: on a poisoned shared cell, `try_with` and `try_with_mut`
return `none` (the `.ok()` call folds `TryLockError::Poisoned` into
the absence marker) instead of panicking. -/
theorem c10_try_folds_poison_into_none {T R : Type} (c : SyncShare T)
    (f : T → R) (g : T → T × R) (h : c.poisoned = true) :
    c.tryWith f = none ∧ c.tryWithMut g = none := by
  constructor <;> simp [SyncShare.tryWith, SyncShare.tryWithMut, h]

/-- C10 witness: a poisoned, unlocked cell on which both non-blocking
accessors return `none`. -/
theorem c10_try_folds_poison_into_none_witness :
    (({ value := 0, lock := LockState.unlocked, poisoned := true } : SyncShare Nat).tryWith
      (fun x => x) = none) ∧
    (({ value := 0, lock := LockState.unlocked, poisoned := true } : SyncShare Nat).tryWithMut
      (fun x => (x + 1, x)) = none) :=
  c10_try_folds_poison_into_none
    ({ value := 0, lock := LockState.unlocked, poisoned := true } : SyncShare Nat)
    (fun x => x) (fun x => (x + 1, x)) rfl
